import Mathlib

/-!
Shallow embedding of the `unist` task-tracking application (Rust sources under
`src/`): the task/status model (`src/uni/task.rs`), the `Data` collection with
its sort, iterator and toggles (`src/ui/app.rs`), the `ClosurePopup` dispatch
(`src/ui/popups.rs`), the `TasksPane` delete flow (`src/ui/panes.rs`), the TOML
storage round-trip (`src/storages.rs`) and the app-level exit/edit flows
(`src/ui/app.rs`).

Timestamps (`chrono::DateTime<FixedOffset>`) are embedded as `Int` seconds on
a common timeline; `chrono::TimeDelta` as `Int` seconds.  Functions that can
panic in Rust (indexing, `unwrap`, `expect`) return `Option`/`Except`, with
`none`/`error` marking the panic.  `Local::now()` is passed explicitly as a
`now : Int` parameter.
-/

namespace Unist

/-- Embeds `TaskStatus` from `src/uni/task.rs`. -/
inductive TaskStatus where
  | Panic
  | Normal
  | Zen
deriving DecidableEq, Repr

/-- Embeds `Task` from `src/uni/task.rs`; `time : Option Int` models
`Option<DateTime<FixedOffset>>` as seconds on a common timeline. -/
structure Task where
  name : String
  description : String
  subject : String
  time : Option Int
  complete : Bool
  starred : Bool
deriving DecidableEq, Repr

/-- Model of `chrono::TimeDelta::num_days` for a delta of `secs` seconds:
whole days, truncated toward zero (Rust integer division). -/
def numDays (secs : Int) : Int := Int.tdiv secs 86400

/-- Modelled from the spec: the `crate::constants` module is not under `src/`;
the spec fixes the Panic threshold at 2 days ("threshold=2"), matching the
legacy `static DAYS_LEFT: i32 = 2` in `src/main.rs`. -/
def DAYS_LEFT : Int := 2

/-- Embeds `Task::get_delta` (`src/uni/task.rs`): `time.map(|v| v - target)`. -/
def Task.get_delta (t : Task) (target : Int) : Option Int :=
  t.time.map (fun v => v - target)

/-- Embeds `Task::get_delta_now` (`src/uni/task.rs`) with `Local::now()`
passed explicitly. -/
def Task.get_delta_now (t : Task) (now : Int) : Option Int :=
  t.get_delta now

/-- Embeds `Task::get_status` (`src/uni/task.rs`, lines 43-60). -/
def Task.get_status (t : Task) (duration : Option Int) : TaskStatus :=
  match duration with
  | none => if t.complete then TaskStatus.Zen else TaskStatus.Normal
  | some d =>
    if numDays d < DAYS_LEFT ∧ (!t.complete) = true then TaskStatus.Panic
    else if t.complete then TaskStatus.Zen
    else TaskStatus.Normal

/-- Embeds `Task::get_status_now` (`src/uni/task.rs`). -/
def Task.get_status_now (t : Task) (now : Int) : TaskStatus :=
  t.get_status (t.get_delta_now now)

/-- Embeds `impl Default for Task` (`src/uni/task.rs`); `Local::now()` is the
explicit `now` argument. -/
def Task.defaultTask (now : Int) : Task :=
  { name := "[Name]"
    description := "Description_goes_here"
    subject := "[Subject]"
    time := some now
    complete := false
    starred := false }

/-- Embeds `Task::is_default` (`src/uni/task.rs`, lines 120-125): structural
equality with a fresh default task whose `time` field is overwritten by the
task's own. -/
def Task.is_default (t : Task) (now : Int) : Bool :=
  let default_task := { Task.defaultTask now with time := t.time }
  t == default_task

/-- Embeds `Data` from `src/ui/app.rs` (lines 26-31). -/
structure Data where
  index : Option Nat
  tasks : List Task
  filter_zen : Bool
deriving DecidableEq, Repr

/-- Embeds `Data::new` (`src/ui/app.rs`, lines 33-40). -/
def Data.new (tasks : List Task) : Data :=
  { index := match tasks.length with
             | 0 => none
             | _ => some 0
    tasks := tasks
    filter_zen := false }

/-- Embeds the comparator closure inside `Data::sort` (`src/ui/app.rs`,
lines 42-63).  `partial_cmp` on two present `DateTime`s is total and is
modelled by the order on the timeline; in the final branch both times are
present, so `getD 0` is the source's `unwrap()`. -/
def Data.sortCmp (task1 task2 : Task) : Ordering :=
  if task1.complete && !task2.complete then Ordering.gt
  else if !task1.complete && task2.complete then Ordering.lt
  else if task1.time.isSome && task2.time.isNone then Ordering.lt
  else if task1.time.isNone && task2.time.isSome then Ordering.gt
  else if task1.time.isNone && task2.time.isNone then Ordering.eq
  else
    let t1 := task1.time.getD 0
    let t2 := task2.time.getD 0
    if t1 < t2 then Ordering.lt
    else if t1 = t2 then Ordering.eq
    else Ordering.gt

/-- `Vec::sort_by` with comparator `c` produces a stable permutation that is
non-decreasing with respect to `c`; its "not greater" relation, used as the
`mergeSort` predicate below. -/
def Data.sortLe (task1 task2 : Task) : Bool :=
  Data.sortCmp task1 task2 != Ordering.gt

/-- Embeds `Data::sort` (`src/ui/app.rs`, lines 42-63) on the task list:
`Vec::sort_by` is modelled by the stable `List.mergeSort`. -/
def Data.sortTasks (tasks : List Task) : List Task :=
  tasks.mergeSort Data.sortLe

/-- Embeds `Data::sort` acting on the whole `Data` value. -/
def Data.sort (d : Data) : Data :=
  { d with tasks := Data.sortTasks d.tasks }

/-- Embeds the collected sequence of `Data::iter` / `DataIterator::next`
(`src/ui/app.rs`, lines 65-70 and 110-122): each `next` call re-filters
`tasks`, dropping Zen-status tasks while `filter_zen` is set, and skips the
elements already yielded, so collecting the iterator yields exactly this
filtered list. -/
def Data.iterList (d : Data) (now : Int) : List Task :=
  d.tasks.filter (fun x => !((x.get_status_now now == TaskStatus.Zen) && d.filter_zen))

/-- Embeds `Data::len` (`src/ui/app.rs`, lines 72-74). -/
def Data.len (d : Data) (now : Int) : Nat :=
  (d.iterList now).length

/-- Embeds `Data::get` (`src/ui/app.rs`, lines 76-78). -/
def Data.get (d : Data) (now : Int) (index : Nat) : Option Task :=
  (d.iterList now).get? index

/-- Embeds `Data::toggle_task_status` (`src/ui/app.rs`, lines 80-84):
`self.tasks[i]` indexes the raw vector and panics (modelled by `none`) when
the index is out of bounds. -/
def Data.toggle_task_status (d : Data) : Option Data :=
  match d.index with
  | none => some d
  | some i =>
    if h : i < d.tasks.length then
      some { d with tasks := d.tasks.set i { d.tasks[i] with complete := !(d.tasks[i]).complete } }
    else none

/-- Embeds `Data::toggle_task_star` (`src/ui/app.rs`, lines 86-90). -/
def Data.toggle_task_star (d : Data) : Option Data :=
  match d.index with
  | none => some d
  | some i =>
    if h : i < d.tasks.length then
      some { d with tasks := d.tasks.set i { d.tasks[i] with starred := !(d.tasks[i]).starred } }
    else none

/-- Embeds `Data::toggle_filter_zen` (`src/ui/app.rs`, lines 92-102). -/
def Data.toggle_filter_zen (d : Data) (now : Int) : Data :=
  let d1 : Data := { d with filter_zen := !d.filter_zen }
  let current_len := (d1.iterList now).length
  let index1 := d.index.bind fun x =>
    if current_len = 0 then none else some (min x (current_len - 1))
  let index2 := if index1.isNone && decide (current_len > 0) then some 0 else index1
  { d1 with index := index2 }

/-- Model of `crossterm::event::KeyCode` restricted to the keys the embedded
flows inspect. -/
inductive Key where
  | char : Char → Key
  | enter
  | esc
deriving DecidableEq, Repr

/-- Embeds `PopupAction` from `src/ui/popups.rs` (lines 31-35). -/
inductive PopupAction where
  | Close
  | Exit
  | None
deriving DecidableEq, Repr

/-- Embeds `TaskEntry` from `src/storages.rs` (lines 18-26).  The persisted
`time` is an RFC 3339 string in the source; a timestamp string is embedded as
the timestamp it denotes. -/
structure TaskEntry where
  name : String
  description : String
  subject : String
  time : Option Int
  complete : Bool
  starred : Bool
deriving DecidableEq, Repr

/-- Model of `chrono::DateTime::to_rfc3339` (external library): RFC 3339
rendering is lossless down to the offset, so the encoded string is embedded
as the timestamp itself. -/
def to_rfc3339 (t : Int) : Int := t

/-- Model of `chrono::DateTime::parse_from_rfc3339` (external library): it
inverts `to_rfc3339` on every string that `to_rfc3339` produced. -/
def parse_from_rfc3339 (s : Int) : Option Int := some s

/-- Embeds `TaskEntry::from_task` (`src/storages.rs`, lines 34-43). -/
def TaskEntry.from_task (t : Task) : TaskEntry :=
  { name := t.name
    description := t.description
    subject := t.subject
    time := t.time.map to_rfc3339
    complete := t.complete
    starred := t.starred }

/-- Embeds `TaskEntry::to_task` (`src/storages.rs`, lines 44-59); a parse
failure is the `Err` case, modelled by `none`. -/
def TaskEntry.to_task (e : TaskEntry) : Option Task :=
  match e.time with
  | some s =>
    (parse_from_rfc3339 s).map fun tm =>
      { name := e.name
        description := e.description
        subject := e.subject
        time := some tm
        complete := e.complete
        starred := e.starred }
  | none =>
    some { name := e.name
           description := e.description
           subject := e.subject
           time := none
           complete := e.complete
           starred := e.starred }

/-- Embeds `TomlStorage` (`src/storages.rs`): the storage handle together
with the file it points at, whose persisted contents are kept as the list of
task entries the TOML text encodes. -/
structure TomlStorage where
  contents : List TaskEntry
deriving DecidableEq, Repr

/-- Embeds `TomlStorage::dump` (`src/storages.rs`, lines 68-74) up to the
entry list the TOML text encodes. -/
def TomlStorage.dump (tasks : List Task) : List TaskEntry :=
  tasks.map TaskEntry.from_task

/-- Embeds the entry-decoding loop of `TomlStorage::read` (`src/storages.rs`,
lines 84-93): entries are converted in order and a conversion failure is an
`expect` panic, modelled by `none`. -/
def TomlStorage.readEntries : List TaskEntry → Option (List Task)
  | [] => some []
  | e :: rest =>
    match TaskEntry.to_task e with
    | none => none
    | some t => (TomlStorage.readEntries rest).map fun ts => t :: ts

/-- Embeds `TomlStorage::read` (`src/storages.rs`, lines 84-93). -/
def TomlStorage.read (s : TomlStorage) : Option (List Task) :=
  TomlStorage.readEntries s.contents

/-- Embeds `TomlStorage::should_save` (`src/storages.rs`, lines 95-97): the
persisted contents differ from what dumping the in-memory tasks would
produce. -/
def TomlStorage.should_save (s : TomlStorage) (tasks : List Task) : Bool :=
  s.contents != TomlStorage.dump tasks

/-- Embeds `TomlStorage::write` (`src/storages.rs`, lines 99-101): a whole
file overwrite. -/
def TomlStorage.write (s : TomlStorage) (tasks : List Task) : TomlStorage :=
  { contents := TomlStorage.dump tasks }

/-- Embeds `ClosurePopup::handle_key_event` (`src/ui/popups.rs`, lines
74-82), with the captured closures passed explicitly; a payload may panic
(`none`). -/
def ClosurePopup.handle_key_event
    (confirmation : Key → Bool) (cancellation : Key → Bool)
    (payload : Data → TomlStorage → Key → Option (Data × TomlStorage × PopupAction))
    (key : Key) (d : Data) (s : TomlStorage) :
    Option (Data × TomlStorage × PopupAction) :=
  if confirmation key then payload d s key
  else if cancellation key then some (d, s, PopupAction.Close)
  else some (d, s, PopupAction.None)

/-- The two `ClosurePopup` instances the app creates: the exit-save
confirmation (`App::exit`, `src/ui/app.rs` lines 287-306) and the delete
confirmation (`TasksPane::remove`, `src/ui/panes.rs` lines 169-179). -/
inductive PopupModel where
  | exitSave
  | removeConfirm
deriving DecidableEq, Repr

/-- Embeds the payload closure of the exit-save popup (`src/ui/app.rs`,
lines 289-298); the cloned storage handle writes to the same file, so the
write lands in the shared storage state. -/
def exitPopupPayload (d : Data) (s : TomlStorage) (key : Key) :
    Option (Data × TomlStorage × PopupAction) :=
  match key with
  | Key.char 'y' | Key.enter => some (d, s.write d.tasks, PopupAction.Exit)
  | Key.char 'n' => some (d, s, PopupAction.Exit)
  | _ => some (d, s, PopupAction.None)

/-- Embeds the confirmation predicate of the exit-save popup
(`src/ui/app.rs`, lines 300-302). -/
def exitPopupConfirmation (key : Key) : Bool :=
  [Key.enter, Key.char 'y', Key.char 'n'].contains key

/-- Embeds the cancellation predicate of the exit-save popup
(`src/ui/app.rs`, line 303). -/
def exitPopupCancellation (key : Key) : Bool :=
  key == Key.esc

/-- Embeds the payload closure of the delete-confirmation popup
(`src/ui/panes.rs`, lines 171-174): `data.index.unwrap()` and `Vec::remove`
panic (modelled by `none`) when the index is absent or out of bounds. -/
def removePopupPayload (d : Data) (s : TomlStorage) (_key : Key) :
    Option (Data × TomlStorage × PopupAction) :=
  match d.index with
  | none => none
  | some i =>
    if i < d.tasks.length then
      some ({ d with tasks := d.tasks.eraseIdx i }, s, PopupAction.Close)
    else none

/-- Embeds the confirmation predicate of the delete-confirmation popup
(`src/ui/panes.rs`, line 175). -/
def removePopupConfirmation (key : Key) : Bool :=
  key == Key.char 'd'

/-- Embeds the cancellation predicate of the delete-confirmation popup
(`src/ui/panes.rs`, line 176). -/
def removePopupCancellation (key : Key) : Bool :=
  key == Key.esc

/-- Dispatches `Popup::handle_key_event` for the two concrete popups the app
builds. -/
def PopupModel.handle_key_event (p : PopupModel) (key : Key) (d : Data)
    (s : TomlStorage) : Option (Data × TomlStorage × PopupAction) :=
  match p with
  | PopupModel.exitSave =>
    ClosurePopup.handle_key_event exitPopupConfirmation exitPopupCancellation
      exitPopupPayload key d s
  | PopupModel.removeConfirm =>
    ClosurePopup.handle_key_event removePopupConfirmation removePopupCancellation
      removePopupPayload key d s

/-- Embeds `TasksPane::remove` (`src/ui/panes.rs`, lines 162-183): an
immediate removal for a default task, otherwise a delete-confirmation popup
request with the data untouched. -/
def TasksPane.remove (now : Int) (d : Data) : Data × Option PopupModel :=
  match d.index with
  | none => (d, none)
  | some i =>
    match d.tasks.get? i with
    | none => (d, none)
    | some task =>
      if task.is_default now then
        ({ d with tasks := d.tasks.eraseIdx i }, none)
      else
        (d, some PopupModel.removeConfirm)

/-- Embeds the `App` controller state (`src/ui/app.rs`, lines 132-146)
restricted to the fields the exit/edit flows touch: the data, the current
popup, the storage handle with its file, and the terminate flag. -/
structure App where
  data : Data
  popup : Option PopupModel
  storage : TomlStorage
  exit : Bool
deriving DecidableEq, Repr

/-- Embeds `App::exit` (`src/ui/app.rs`, lines 282-308): terminate at once
when the dirty-check is clean, otherwise open the exit-save popup. -/
def App.exitSeq (a : App) : App :=
  if !(a.storage.should_save a.data.tasks) then { a with exit := true }
  else { a with popup := some PopupModel.exitSave }

/-- Embeds the popup branch of `App::handle_key_event` (`src/ui/app.rs`,
lines 224-244): with a popup open the key goes only to the popup; `Exit`
sets the terminate flag and drops the popup, `Close` drops the popup, `None`
keeps it.  Without a popup this branch is the identity. -/
def App.popupTick (a : App) (key : Key) : Option App :=
  match a.popup with
  | none => some a
  | some popup =>
    match popup.handle_key_event key a.data a.storage with
    | none => none
    | some (d, s, act) =>
      match act with
      | PopupAction.Exit => some { a with data := d, storage := s, popup := none, exit := true }
      | PopupAction.Close => some { a with data := d, storage := s, popup := none }
      | PopupAction.None => some { a with data := d, storage := s, popup := some popup }

/-- Embeds `App::edit` (`src/ui/app.rs`, lines 210-216); the generic
`R::read` is the `reader` argument, returning `none` on a `ReaderError`. -/
def App.edit (reader : Task → Option Task) (a : App) : Except Unit App :=
  match a.data.index.bind (fun x => a.data.tasks.get? x) with
  | none => Except.ok a
  | some old_task =>
    match reader old_task with
    | none => Except.error ()
    | some new_task =>
      Except.ok { a with data := { a.data with
        tasks := a.data.tasks.set (a.data.index.getD 0) new_task } }

/-- Embeds the `'e'` branch of `App::handle_key_event` (`src/ui/app.rs`,
lines 261-268): `self.edit().unwrap()`, whose panic on `Err` is modelled by
`none`. -/
def App.editTick (reader : Task → Option Task) (a : App) : Option App :=
  match a.edit reader with
  | Except.error _ => none
  | Except.ok a1 => some a1

/-- Modelled from the spec, for comparison with the code: the positions into
the underlying task vector that survive the active Zen filter, in order —
"the selection index addresses the current filtered, sorted view". -/
def Data.viewPositions (d : Data) (now : Int) : List Nat :=
  (List.range d.tasks.length).filter fun j =>
    match d.tasks.get? j with
    | some x => !((x.get_status_now now == TaskStatus.Zen) && d.filter_zen)
    | none => false

/-- Modelled from the spec, for comparison with the code:
`toggle_task_status` with the selection index resolved through the active
filter at call time, mutating the task the filtered view denotes. -/
def Data.toggle_task_status_view (d : Data) (now : Int) : Option Data :=
  match d.index with
  | none => some d
  | some i =>
    match (d.viewPositions now).get? i with
    | none => none
    | some j =>
      if h : j < d.tasks.length then
        some { d with tasks := d.tasks.set j { d.tasks[j] with complete := !(d.tasks[j]).complete } }
      else none

/-- Modelled from the spec, for comparison with the code:
`toggle_task_star` resolved through the active filter at call time. -/
def Data.toggle_task_star_view (d : Data) (now : Int) : Option Data :=
  match d.index with
  | none => some d
  | some i =>
    match (d.viewPositions now).get? i with
    | none => none
    | some j =>
      if h : j < d.tasks.length then
        some { d with tasks := d.tasks.set j { d.tasks[j] with starred := !(d.tasks[j]).starred } }
      else none

/-- The invariant claimed of `Data`: the selection index is present exactly
when the filtered view is non-empty. -/
def Data.selectionInvariant (d : Data) (now : Int) : Prop :=
  d.index.isSome = !(d.iterList now).isEmpty

instance (d : Data) (now : Int) : Decidable (d.selectionInvariant now) := by
  unfold Data.selectionInvariant
  infer_instance

/-- Embeds `App::add_default` (`src/ui/app.rs`, lines 218-220), triggered by
the `'p'` key. -/
def App.add_default (now : Int) (a : App) : App :=
  { a with data := { a.data with tasks := a.data.tasks ++ [Task.defaultTask now] } }

/-- Rank of the completion flag under the sort comparator: incomplete sorts
first. -/
def completeRank (t : Task) : Nat := if t.complete then 1 else 0

/-- Rank of deadline presence under the sort comparator: deadlined sorts
first. -/
def timeRank (t : Task) : Nat := if t.time.isSome then 0 else 1

/-- The deadline value compared in the final branch of the sort comparator. -/
def timeVal (t : Task) : Int := t.time.getD 0

/-- The exit-flow behaviour claimed of the quit key, for an app in Normal
state: a clean dirty-check terminates at once with no popup; a dirty one
opens the confirm-save popup, whose Enter/`'y'` keys persist then terminate,
whose `'n'` terminates without persisting, and whose Esc closes the popup
without terminating. -/
def ExitFlowSpec (a : App) : Prop :=
  (a.storage.should_save a.data.tasks = false →
    App.exitSeq a = { a with exit := true }) ∧
  (a.storage.should_save a.data.tasks = true →
    App.exitSeq a = { a with popup := some PopupModel.exitSave } ∧
    (App.exitSeq a).exit = false ∧
    (∀ k : Key, k = Key.enter ∨ k = Key.char 'y' →
      App.popupTick (App.exitSeq a) k =
        some { a with storage := a.storage.write a.data.tasks, popup := none, exit := true }) ∧
    App.popupTick (App.exitSeq a) (Key.char 'n') =
      some { a with popup := none, exit := true } ∧
    App.popupTick (App.exitSeq a) Key.esc =
      some { a with popup := none, exit := false })

/-- The delete-request behaviour claimed of the `'d'` key in the tasks pane,
for a selected task `t` at raw index `i`: a default task is removed at once
with no popup; any other task leaves the data untouched and opens the
delete-confirmation popup, confirmed by `'d'` and cancelled by Esc. -/
def RemoveFlowSpec (now : Int) (d : Data) (i : Nat) (t : Task) : Prop :=
  (t.is_default now = true →
    TasksPane.remove now d = ({ d with tasks := d.tasks.eraseIdx i }, none)) ∧
  (t.is_default now = false →
    TasksPane.remove now d = (d, some PopupModel.removeConfirm) ∧
    (∀ s : TomlStorage,
      PopupModel.handle_key_event PopupModel.removeConfirm (Key.char 'd') d s =
        some ({ d with tasks := d.tasks.eraseIdx i }, s, PopupAction.Close)) ∧
    (∀ s : TomlStorage,
      PopupModel.handle_key_event PopupModel.removeConfirm Key.esc d s =
        some (d, s, PopupAction.Close)) ∧
    (∀ (s : TomlStorage) (k : Key), k ≠ Key.char 'd' → k ≠ Key.esc →
      PopupModel.handle_key_event PopupModel.removeConfirm k d s =
        some (d, s, PopupAction.None)))

/-- Concrete app for the C1 witness: one task, empty persisted file (so the
dirty-check reports true), no popup, terminate flag unset. -/
def c1App : App :=
  { data := { index := some 0, tasks := [Task.defaultTask 0], filter_zen := false }
    popup := none
    storage := { contents := [] }
    exit := false }

/-- Concrete Zen task (complete, no deadline) for the C4 failing input. -/
def c4Zen : Task :=
  { name := "zen", description := "", subject := "s", time := none
    complete := true, starred := false }

/-- Concrete Normal task (incomplete, no deadline) for the C4 failing
input. -/
def c4Normal : Task :=
  { name := "todo", description := "", subject := "s", time := none
    complete := false, starred := false }

/-- C4 failing input: Zen filter active, selection index 0; the filtered view
holds only `c4Normal`, while raw position 0 holds `c4Zen`. -/
def c4Data : Data :=
  { index := some 0, tasks := [c4Zen, c4Normal], filter_zen := true }

/-- C5 failing input: a single selected default task. -/
def c5Data : Data :=
  { index := some 0, tasks := [Task.defaultTask 0], filter_zen := false }

/-- C5 second failing input: an empty collection (selection absent), as
handed to the `'p'` append handler. -/
def c5AppEmpty : App :=
  { data := Data.new [], popup := none, storage := { contents := [] }, exit := false }

/-- Concrete app for the C6 failing input: a task is selected, so the `'e'`
key invokes the Reader on it. -/
def c6App : App :=
  { data := { index := some 0, tasks := [Task.defaultTask 0], filter_zen := false }
    popup := none
    storage := { contents := [] }
    exit := false }

/-- Concrete non-default task for the C7 witness. -/
def c7Task : Task :=
  { name := "essay", description := "draft", subject := "eng", time := none
    complete := false, starred := false }

/-- Concrete data for the C7 witness: the non-default task is selected. -/
def c7Data : Data :=
  { index := some 0, tasks := [c7Task], filter_zen := false }

/-- Concrete data for the C10 witness: the state left behind by removing the
last remaining (default) task — the selection index survives the removal. -/
def c10Data : Data :=
  (TasksPane.remove 0 { index := some 0, tasks := [Task.defaultTask 0], filter_zen := false }).1

/-- Key lemma for C3: `num_days(d) < 2` is the same as `d` being below two
days' worth of seconds (truncation toward zero agrees with `<` here). -/
theorem numDays_lt_two_iff (d : Int) : numDays d < 2 ↔ d < 172800 := by
  unfold numDays
  rcases le_or_lt 0 d with h | h
  · rw [Int.tdiv_eq_ediv h (by norm_num)]
    rw [Int.ediv_lt_iff_lt_mul (by norm_num)]
    norm_num
  · constructor
    · intro _
      omega
    · intro _
      have hneg : Int.tdiv d 86400 ≤ 0 := by
        have h1 : (0 : Int) ≤ Int.tdiv (-d) 86400 :=
          Int.tdiv_nonneg (by omega) (by norm_num)
        rw [Int.neg_tdiv] at h1
        omega
      omega

/-- C3: for every task and optional remaining duration, `get_status` returns
Zen/Normal by completion when no duration is present; with a duration it
returns Panic exactly when the duration is below the 2-day threshold
(`DAYS_LEFT`, i.e. below 172800 seconds) and the task is incomplete, else Zen
if complete, else Normal; and a complete task is always Zen regardless of
deadline. -/
theorem c3_get_status (t : Task) (d : Int) :
    (Task.get_status t none =
      (if t.complete then TaskStatus.Zen else TaskStatus.Normal)) ∧
    (Task.get_status t (some d) =
      (if d < 172800 ∧ t.complete = false then TaskStatus.Panic
       else if t.complete then TaskStatus.Zen
       else TaskStatus.Normal)) ∧
    (∀ dur : Option Int, Task.get_status { t with complete := true } dur = TaskStatus.Zen) := by
  refine ⟨rfl, ?_, ?_⟩
  · cases hc : t.complete
    · simp [Task.get_status, DAYS_LEFT, hc, numDays_lt_two_iff]
    · simp [Task.get_status, DAYS_LEFT, hc]
  · intro dur
    cases dur <;> simp [Task.get_status]

/-- Characterization of the sort comparator's "not greater" relation as the
lexicographic order on (completion, deadline presence, deadline). -/
theorem sortLe_iff (a b : Task) : Data.sortLe a b = true ↔
    (completeRank a < completeRank b ∨
      (completeRank a = completeRank b ∧
        (timeRank a < timeRank b ∨
          (timeRank a = timeRank b ∧ timeVal a ≤ timeVal b)))) := by
  unfold Data.sortLe Data.sortCmp completeRank timeRank timeVal
  cases hc1 : a.complete <;> cases hc2 : b.complete <;>
    cases ht1 : a.time <;> cases ht2 : b.time <;>
      simp [hc1, hc2, ht1, ht2]
  all_goals
    first
    | decide
    | (rename_i x y
       rcases lt_trichotomy x y with h | h | h
       · rw [if_pos h]
         simp [le_of_lt h] <;> decide
       · subst h
         rw [if_neg (lt_irrefl x), if_pos rfl]
         simp <;> decide
       · rw [if_neg (by omega : ¬ x < y), if_neg (by omega : ¬ x = y)]
         simp [not_le.mpr h] <;> decide)

/-- Transitivity of the comparator's "not greater" relation. -/
theorem sortLe_trans (a b c : Task) :
    Data.sortLe a b = true → Data.sortLe b c = true → Data.sortLe a c = true := by
  simp only [sortLe_iff]
  omega

/-- Totality of the comparator's "not greater" relation. -/
theorem sortLe_total (a b : Task) :
    (Data.sortLe a b || Data.sortLe b a) = true := by
  rw [Bool.or_eq_true]
  simp only [sortLe_iff]
  omega

/-- What a single comparator inequality says about a pair of tasks in sorted
position. -/
theorem sortLe_dest (a b : Task) (h : Data.sortLe a b = true) :
    (a.complete = true → b.complete = true) ∧
    (a.complete = b.complete → a.time = none → b.time = none) ∧
    (a.complete = b.complete → ∀ x y : Int, a.time = some x → b.time = some y → x ≤ y) := by
  rw [sortLe_iff] at h
  cases hc1 : a.complete <;> cases hc2 : b.complete <;>
    cases ht1 : a.time <;> cases ht2 : b.time <;>
      simp_all [completeRank, timeRank, timeVal]

/-- C2: after `Data::sort`, at every pair of positions in order, incomplete
precedes complete; within equal completion a deadlined task never follows a
non-deadlined one; and within equal completion the deadlines are
non-decreasing. -/
theorem c2_sort_order (d : Data) :
    (Data.sort d).tasks.Pairwise (fun t1 t2 =>
      (t1.complete = true → t2.complete = true) ∧
      (t1.complete = t2.complete → t1.time = none → t2.time = none) ∧
      (t1.complete = t2.complete →
        ∀ x y : Int, t1.time = some x → t2.time = some y → x ≤ y)) := by
  have hs := List.sorted_mergeSort sortLe_trans sortLe_total d.tasks
  exact List.Pairwise.imp (fun hab => sortLe_dest _ _ hab) hs

/-- C9: toggling the Zen filter twice restores the filtered view, both its
content and its length. -/
theorem c9_filter_toggle_involutive (d : Data) (now : Int) :
    ((d.toggle_filter_zen now).toggle_filter_zen now).iterList now = d.iterList now ∧
    ((d.toggle_filter_zen now).toggle_filter_zen now).len now = d.len now := by
  have h1 : ((d.toggle_filter_zen now).toggle_filter_zen now).iterList now = d.iterList now := by
    unfold Data.iterList Data.toggle_filter_zen
    simp
  exact ⟨h1, by simp [Data.len, h1]⟩

/-- Round-trip of a single entry through the persisted representation. -/
theorem to_task_from_task (t : Task) :
    TaskEntry.to_task (TaskEntry.from_task t) = some t := by
  cases t with
  | mk name description subject time complete starred =>
    cases time <;>
      simp [TaskEntry.to_task, TaskEntry.from_task, to_rfc3339, parse_from_rfc3339]

/-- Reading back a dumped task list restores it. -/
theorem readEntries_dump (tasks : List Task) :
    TomlStorage.readEntries (TomlStorage.dump tasks) = some tasks := by
  induction tasks with
  | nil => rfl
  | cons t rest ih =>
    simp [TomlStorage.dump, TomlStorage.readEntries, to_task_from_task]
    simpa [TomlStorage.dump] using ih

/-- C8: a storage write followed by a read reproduces the task collection
(all fields preserved), and a task without a deadline is persisted without a
deadline and comes back without one. -/
theorem c8_roundtrip (s : TomlStorage) (tasks : List Task) (t : Task) :
    TomlStorage.read (s.write tasks) = some tasks ∧
    (TaskEntry.from_task { t with time := none }).time = none ∧
    TaskEntry.to_task (TaskEntry.from_task { t with time := none }) =
      some { t with time := none } := by
  refine ⟨?_, rfl, to_task_from_task _⟩
  simp [TomlStorage.read, TomlStorage.write, readEntries_dump]

/-- C1: the exit flow behaves as `ExitFlowSpec` states on every app in
Normal state with the terminate flag unset. -/
theorem c1_exit_flow (a : App) (hpopup : a.popup = none) (hexit : a.exit = false) :
    ExitFlowSpec a := by
  unfold ExitFlowSpec
  constructor
  · intro h
    unfold App.exitSeq
    simp [h]
  · intro h
    have he : App.exitSeq a = { a with popup := some PopupModel.exitSave } := by
      unfold App.exitSeq
      simp [h]
    rw [he]
    refine ⟨rfl, by simp [hexit], ?_, ?_, ?_⟩
    · rintro k (rfl | rfl) <;>
        simp [App.popupTick, PopupModel.handle_key_event, ClosurePopup.handle_key_event,
          exitPopupConfirmation, exitPopupPayload]
    · simp [App.popupTick, PopupModel.handle_key_event, ClosurePopup.handle_key_event,
        exitPopupConfirmation, exitPopupPayload]
    · simp [App.popupTick, PopupModel.handle_key_event, ClosurePopup.handle_key_event,
        exitPopupConfirmation, exitPopupCancellation, hexit]

/-- C1 witness: the exit flow evaluated on the concrete dirty app `c1App`. -/
theorem c1_exit_flow_witness : ExitFlowSpec c1App :=
  c1_exit_flow c1App rfl rfl

/-- C4 (failing-input evaluation): with the Zen filter active and index 0,
the code toggles the hidden Zen task at raw position 0, not the task the
filtered view shows at position 0; the spec-modelled view-resolved toggles
disagree with the code on this input. -/
theorem c4_raw_vs_view :
    c4Data.iterList 0 = [c4Normal] ∧
    Data.toggle_task_status c4Data =
      some { c4Data with tasks := [{ c4Zen with complete := false }, c4Normal] } ∧
    Data.toggle_task_status_view c4Data 0 =
      some { c4Data with tasks := [c4Zen, { c4Normal with complete := true }] } ∧
    Data.toggle_task_status c4Data ≠ Data.toggle_task_status_view c4Data 0 ∧
    Data.toggle_task_star c4Data ≠ Data.toggle_task_star_view c4Data 0 := by
  decide

/-- C5 (failing-input evaluation): the invariant "selection present iff
filtered view non-empty" holds before removing the last (default) task and
fails after — the removal leaves the index set; appending a default task to
an empty collection breaks it from the other side, leaving the index absent
with a non-empty view. -/
theorem c5_invariant_not_preserved :
    Data.selectionInvariant c5Data 0 ∧
    (TasksPane.remove 0 c5Data).2 = none ∧
    (TasksPane.remove 0 c5Data).1.index = some 0 ∧
    (TasksPane.remove 0 c5Data).1.iterList 0 = [] ∧
    ¬ Data.selectionInvariant ((TasksPane.remove 0 c5Data).1) 0 ∧
    Data.selectionInvariant c5AppEmpty.data 0 ∧
    ¬ Data.selectionInvariant ((App.add_default 0 c5AppEmpty).data) 0 := by
  decide

/-- C6 (failing-input evaluation): with a task selected, a failing Reader
makes the `'e'` handler panic (`edit().unwrap()`), modelled by `none`; a
successful Reader replaces the selected task in place. -/
theorem c6_reader_failure_panics :
    (c6App.data.index.bind fun x => c6App.data.tasks.get? x).isSome = true ∧
    App.editTick (fun _ => none) c6App = none ∧
    (∀ t1 : Task, App.editTick (fun _ => some t1) c6App =
      some { c6App with data := { c6App.data with tasks := [t1] } }) := by
  refine ⟨by decide, by decide, fun t1 => rfl⟩

/-- C7: the delete request behaves as `RemoveFlowSpec` states whenever the
selection index resolves to a task. -/
theorem c7_delete_flow (now : Int) (d : Data) (i : Nat) (t : Task)
    (hidx : d.index = some i) (hget : d.tasks.get? i = some t) :
    RemoveFlowSpec now d i t := by
  have hget1 : d.tasks[i]? = some t := by simpa using hget
  have hlt : i < d.tasks.length := by
    by_contra hge
    rw [List.getElem?_eq_none (Nat.le_of_not_lt hge)] at hget1
    cases hget1
  unfold RemoveFlowSpec
  constructor
  · intro hdef
    unfold TasksPane.remove
    simp [hidx, hget1, hdef]
  · intro hdef
    refine ⟨?_, ?_, ?_, ?_⟩
    · unfold TasksPane.remove
      simp [hidx, hget1, hdef]
    · intro s
      simp [PopupModel.handle_key_event, ClosurePopup.handle_key_event,
        removePopupConfirmation, removePopupPayload, hidx, hlt]
    · intro s
      simp [PopupModel.handle_key_event, ClosurePopup.handle_key_event,
        removePopupConfirmation, removePopupCancellation]
    · intro s k hk1 hk2
      simp [PopupModel.handle_key_event, ClosurePopup.handle_key_event,
        removePopupConfirmation, removePopupCancellation, hk1, hk2]

/-- C7 witness: the delete flow evaluated on a selected non-default task. -/
theorem c7_delete_flow_witness : RemoveFlowSpec 0 c7Data 0 c7Task :=
  c7_delete_flow 0 c7Data 0 c7Task (by decide) (by decide)

/-- C10: with the selection index present but at or past the end of the
underlying vector, both toggles index out of bounds (a panic), not a
no-op. -/
theorem c10_out_of_bounds (d : Data) (i : Nat) (hidx : d.index = some i)
    (hlen : d.tasks.length ≤ i) :
    Data.toggle_task_status d = none ∧ Data.toggle_task_star d = none := by
  have hnlt : ¬ i < d.tasks.length := Nat.not_lt.mpr hlen
  unfold Data.toggle_task_status Data.toggle_task_star
  rw [hidx]
  simp [hnlt]

/-- C10 witness: the state reached by removing the last remaining default
task keeps its index, and both toggles evaluate to a panic there. -/
theorem c10_out_of_bounds_witness :
    c10Data.index = some 0 ∧ c10Data.tasks.length ≤ 0 ∧
    Data.toggle_task_status c10Data = none ∧ Data.toggle_task_star c10Data = none :=
  ⟨by decide, by decide,
    (c10_out_of_bounds c10Data 0 (by decide) (by decide)).1,
    (c10_out_of_bounds c10Data 0 (by decide) (by decide)).2⟩

end Unist

